import Mathlib

/-!
Verification of the 8D-audio DSP core (`src/another.py`, class `Audio8DConverter`).

The core pipeline is: panning stage, reverb stage, peak normalization.
Configuration parameters are plain decimal numbers in the source; we embed them
as rationals so that validation is decidable, and cast them to the reals inside
the signal-processing stages (which use the transcendental sine function).

Audio buffers are embedded as a frame count `N` together with an index function
giving the sample value of each frame; only indices below `N` are meaningful.
Samples are real numbers (the source works in float32/float64; the spec treats
sample data mathematically, with exact arithmetic standing in for tolerance
claims).

Failure modes of the numpy code are made explicit:
  - `convert_file` reshapes a mono file to a 2-D array of shape (N, 1), so the
    1-D up-mix branch in `_apply_panning` never fires on pipeline inputs and
    the read `audio_data[:, 1]` raises IndexError for every mono input (numpy
    bounds-checks the column index even when N = 0); modelled by the
    `panIndexError` outcome;
  - for `delay_samples = 0` the source executes `ir[0] = 1` on a zero-length
    array, raising IndexError; modelled by the `irIndexError` outcome;
  - `np.max` over a zero-frame buffer raises ValueError; modelled by `emptyMax`;
  - dividing an all-zero buffer by its zero peak yields NaN samples in numpy
    (it does not return the buffer unchanged); a NaN-filled buffer is not a
    real-valued buffer, modelled by the `nanPeak` outcome.
-/

namespace Audio8D

/-- Configuration record, from `AudioConfig` in the source: pan_speed (Hz),
depth (0-1), reverb_delay (ms), reverb_decay (0-1). Fields are rationals. -/
structure AudioConfig where
  pan_speed : ℚ
  depth : ℚ
  reverb_delay : ℚ
  reverb_decay : ℚ
deriving DecidableEq

/-- The default configuration from the source:
pan_speed=0.5, depth=0.95, reverb_delay=50, reverb_decay=0.3. -/
def defaultCfg : AudioConfig := ⟨1/2, 19/20, 50, 3/10⟩

/-- `_validate_config`: checks the four parameters in order and reports the
first violated constraint with the message raised by the source. -/
def validateConfig (c : AudioConfig) : Except String Unit :=
  if ¬(0 < c.pan_speed ∧ c.pan_speed ≤ 2) then
    .error "Pan speed must be between 0 and 2 Hz"
  else if ¬(0 ≤ c.depth ∧ c.depth ≤ 1) then
    .error "Depth must be between 0 and 1"
  else if ¬(0 < c.reverb_delay ∧ c.reverb_delay ≤ 100) then
    .error "Reverb delay must be between 0 and 100 ms"
  else if ¬(0 ≤ c.reverb_decay ∧ c.reverb_decay ≤ 1) then
    .error "Reverb decay must be between 0 and 1"
  else .ok ()

/-- A stereo buffer: frame count and, per frame index, the (left, right)
sample pair. Indices at or beyond `N` are not meaningful. -/
structure StereoBuf where
  N : ℕ
  data : ℕ → ℝ × ℝ

/-- Input audio data as handed to `_apply_panning` after the reshape in
`convert_file`: a mono file becomes a 2-D array of shape (N, 1) — `.mono N x`
with the single column `x` — and a stereo file shape (N, 2) — `.stereo N x`.
Both are 2-D, so the `len(audio_data.shape) == 1` up-mix branch in
`_apply_panning` never fires on pipeline inputs. -/
inductive AudioData where
  | mono (N : ℕ) (x : ℕ → ℝ)
  | stereo (N : ℕ) (x : ℕ → ℝ × ℝ)

/-- Failure outcomes of the numpy pipeline, see the file comment. -/
inductive PipeErr where
  | panIndexError
  | irIndexError
  | emptyMax
  | nanPeak
deriving DecidableEq

noncomputable section

/-- The time base `np.linspace(0, duration, N)` with `duration = N / sr`:
`t i = i * duration / (N - 1)` for `N ≥ 2`; a single point is `[0]`, and for
an empty buffer no point is ever read, so the value is irrelevant (0). -/
def tlin (N sr : ℕ) (i : ℕ) : ℝ :=
  if N ≤ 1 then 0 else (i : ℝ) * ((N : ℝ) / (sr : ℝ)) / ((N : ℝ) - 1)

/-- The pan curve of `_apply_panning`:
`sin(2 * pi * pan_speed * t) * depth`. -/
def panCurve (c : AudioConfig) (sr N : ℕ) (i : ℕ) : ℝ :=
  Real.sin (2 * Real.pi * (c.pan_speed : ℝ) * tlin N sr i) * (c.depth : ℝ)

/-- The gained stereo buffer built by `_apply_panning` from a (N, 2) array:
`left * (1 + p)`, `right * (1 - p)` per frame. -/
def panBuf (c : AudioConfig) (sr : ℕ) (N : ℕ) (x : ℕ → ℝ × ℝ) : StereoBuf :=
  ⟨N, fun i =>
    ((x i).1 * (1 + panCurve c sr N i),
     (x i).2 * (1 - panCurve c sr N i))⟩

/-- `_apply_panning` on the reshaped pipeline input: the 1-D up-mix branch is
dead code (both input shapes are 2-D), so on a mono (N, 1) array the read
`audio_data[:, 1]` raises IndexError — numpy bounds-checks the column index
even when N = 0 — while a stereo (N, 2) array gets the differential gain. -/
def applyPanning (c : AudioConfig) (sr : ℕ) (a : AudioData) :
    Except PipeErr StereoBuf :=
  match a with
  | .mono _ _ => .error .panIndexError
  | .stereo N x => .ok (panBuf c sr N x)

/-- `delay_samples = int(reverb_delay * sample_rate / 1000)` (truncation;
for the nonnegative values that occur this is the floor). -/
def delaySamples (c : AudioConfig) (sr : ℕ) : ℕ :=
  (⌊(c.reverb_delay * (sr : ℚ)) / 1000⌋).toNat

/-- The impulse-response array built by `_apply_reverb` after both
assignments `ir[0] = 1` and `ir[delay_samples-1] = decay`: position
`delay_samples - 1` holds `decay` (overwriting position 0 when
`delay_samples = 1`), position 0 otherwise holds 1, the rest are 0.
Positions at or beyond `delay_samples` do not exist in the source array and
are never read by the filter; the value 0 there is junk. Only meaningful for
`delay_samples ≥ 1` (for `delay_samples = 0` the source raises IndexError
before any filtering). -/
def impulseResponse (c : AudioConfig) (sr : ℕ) (j : ℕ) : ℝ :=
  if j = delaySamples c sr - 1 then (c.reverb_decay : ℝ)
  else if j = 0 then 1 else 0

/-- `scipy.signal.lfilter(ir, [1], x)` on a length-`d` FIR tap vector:
`y i = sum over j < min (i+1) d of ir j * x (i - j)` (causal direct-form FIR). -/
def fir (ir : ℕ → ℝ) (d : ℕ) (x : ℕ → ℝ) (i : ℕ) : ℝ :=
  ∑ j ∈ Finset.range (min (i + 1) d), ir j * x (i - j)

/-- The buffer produced by `_apply_reverb` when the impulse response is
nonempty: per channel independently, `original + reverb * 0.5`. -/
def reverbOut (c : AudioConfig) (sr : ℕ) (b : StereoBuf) : StereoBuf :=
  let d := delaySamples c sr
  ⟨b.N, fun i =>
    ((b.data i).1 + fir (impulseResponse c sr) d (fun k => (b.data k).1) i * 0.5,
     (b.data i).2 + fir (impulseResponse c sr) d (fun k => (b.data k).2) i * 0.5)⟩

/-- `_apply_reverb`: for `delay_samples = 0` the assignment `ir[0] = 1` into
`np.zeros(0)` raises IndexError; otherwise the filtered-and-mixed buffer. -/
def applyReverb (c : AudioConfig) (sr : ℕ) (b : StereoBuf) :
    Except PipeErr StereoBuf :=
  if delaySamples c sr = 0 then .error .irIndexError
  else .ok (reverbOut c sr b)

/-- The per-frame maximand of `np.max(np.abs(audio_data))`:
the larger of the two absolute channel values. -/
def absMax (b : StereoBuf) (i : ℕ) : ℝ :=
  max |(b.data i).1| |(b.data i).2|

/-- `np.max(np.abs(audio_data))`: the peak over all frames and channels;
`none` models the ValueError numpy raises on a zero-size reduction. -/
def peak? (b : StereoBuf) : Option ℝ :=
  if h : 0 < b.N then
    some ((Finset.range b.N).sup'
      (Finset.nonempty_range_iff.mpr (Nat.pos_iff_ne_zero.mp h)) (absMax b))
  else none

/-- The normalization step `audio_data / np.max(np.abs(audio_data))`:
fails on an empty buffer (ValueError from `np.max`), and on a zero peak the
numpy division 0/0 produces NaN samples rather than a real-valued buffer,
modelled as the `nanPeak` outcome. -/
def normalize (b : StereoBuf) : Except PipeErr StereoBuf :=
  match peak? b with
  | none => .error .emptyMax
  | some p =>
      if p = 0 then .error .nanPeak
      else .ok ⟨b.N, fun i => ((b.data i).1 / p, (b.data i).2 / p)⟩

/-- The DSP core of `convert_file`: panning, reverb, normalization. -/
def process (c : AudioConfig) (sr : ℕ) (a : AudioData) :
    Except PipeErr StereoBuf :=
  (applyPanning c sr a).bind fun pb => (applyReverb c sr pb).bind normalize

end

/-! ## Helper lemmas -/

/-- Characterization of a successful validation: all four range checks hold. -/
theorem validateConfig_ok_iff (c : AudioConfig) :
    validateConfig c = .ok () ↔
      (0 < c.pan_speed ∧ c.pan_speed ≤ 2) ∧ (0 ≤ c.depth ∧ c.depth ≤ 1) ∧
      (0 < c.reverb_delay ∧ c.reverb_delay ≤ 100) ∧
      (0 ≤ c.reverb_decay ∧ c.reverb_decay ≤ 1) := by
  unfold validateConfig
  split_ifs with h1 h2 h3 h4 <;> simp_all

/-- The pan curve is bounded by the depth on either side. -/
theorem panCurve_bounds (c : AudioConfig) (sr N i : ℕ) (hd : 0 ≤ c.depth) :
    -(c.depth : ℝ) ≤ panCurve c sr N i ∧ panCurve c sr N i ≤ (c.depth : ℝ) := by
  have hd' : (0 : ℝ) ≤ (c.depth : ℝ) := by exact_mod_cast hd
  constructor
  · have := mul_le_mul_of_nonneg_right
      (Real.neg_one_le_sin (2 * Real.pi * (c.pan_speed : ℝ) * tlin N sr i)) hd'
    simpa [panCurve] using this
  · have := mul_le_mul_of_nonneg_right
      (Real.sin_le_one (2 * Real.pi * (c.pan_speed : ℝ) * tlin N sr i)) hd'
    simpa [panCurve] using this

/-- Unfolding the panning stage on a stereo input. -/
theorem applyPanning_stereo (c : AudioConfig) (sr N : ℕ) (x : ℕ → ℝ × ℝ) :
    applyPanning c sr (.stereo N x) = .ok (panBuf c sr N x) := rfl

/-- Unfolding the panning stage on a mono input: the column read fails. -/
theorem applyPanning_mono (c : AudioConfig) (sr N : ℕ) (x : ℕ → ℝ) :
    applyPanning c sr (.mono N x) = .error .panIndexError := rfl

/-- The pipeline on a mono input stops at the panning stage. -/
theorem process_mono (c : AudioConfig) (sr N : ℕ) (x : ℕ → ℝ) :
    process c sr (.mono N x) = .error .panIndexError := rfl

/-- The pipeline on a stereo input: reverb then normalization of the panned
buffer. -/
theorem process_stereo (c : AudioConfig) (sr N : ℕ) (x : ℕ → ℝ × ℝ) :
    process c sr (.stereo N x) =
      (applyReverb c sr (panBuf c sr N x)).bind normalize := rfl

/-- The filter output is causal: it only reads inputs at indices ≤ i. -/
theorem fir_causal (ir : ℕ → ℝ) (d : ℕ) (x y : ℕ → ℝ) (i : ℕ)
    (h : ∀ k, k ≤ i → x k = y k) : fir ir d x i = fir ir d y i :=
  Finset.sum_congr rfl fun j _ => by rw [h (i - j) (Nat.sub_le i j)]

/-- Before the delayed tap can contribute (i + 1 < delay), the filter output
is just the input: only the unit tap at 0 is inside the window. -/
theorem fir_eval_early (c : AudioConfig) (sr : ℕ) (x : ℕ → ℝ) (i : ℕ)
    (h : i + 1 < delaySamples c sr) :
    fir (impulseResponse c sr) (delaySamples c sr) x i = x i := by
  unfold fir
  rw [min_eq_left (by omega)]
  rw [Finset.sum_eq_single 0 (fun j hj hj0 => ?_) (fun h0 => absurd (Finset.mem_range.mpr (by omega)) h0)]
  · rw [impulseResponse, if_neg (by omega), if_pos rfl, one_mul, Nat.sub_zero]
  · rw [impulseResponse, if_neg (by simp at hj; omega), if_neg hj0, zero_mul]

/-- Once the delayed tap is inside the window (delay ≥ 2 and
i ≥ delay - 1), the filter output is input plus decayed delayed input. -/
theorem fir_eval_echo (c : AudioConfig) (sr : ℕ) (x : ℕ → ℝ) (i : ℕ)
    (h2 : 2 ≤ delaySamples c sr) (hi : delaySamples c sr - 1 ≤ i) :
    fir (impulseResponse c sr) (delaySamples c sr) x i =
      x i + (c.reverb_decay : ℝ) * x (i - (delaySamples c sr - 1)) := by
  unfold fir
  rw [min_eq_right (by omega)]
  have hsplit : ∀ j ∈ Finset.range (delaySamples c sr),
      impulseResponse c sr j * x (i - j) =
        (if j = 0 then x (i - j) else 0) +
        (if j = delaySamples c sr - 1 then (c.reverb_decay : ℝ) * x (i - j) else 0) := by
    intro j _
    rw [impulseResponse]
    by_cases hlast : j = delaySamples c sr - 1
    · rw [if_pos hlast, if_neg (by omega), if_pos hlast, zero_add]
    · rw [if_neg hlast, if_neg hlast, add_zero]
      by_cases h0 : j = 0
      · rw [if_pos h0, if_pos h0, one_mul]
      · rw [if_neg h0, if_neg h0, zero_mul]
  rw [Finset.sum_congr rfl hsplit, Finset.sum_add_distrib,
    Finset.sum_ite_eq' (Finset.range (delaySamples c sr)) 0,
    Finset.sum_ite_eq' (Finset.range (delaySamples c sr)) (delaySamples c sr - 1),
    if_pos (Finset.mem_range.mpr (by omega)), if_pos (Finset.mem_range.mpr (by omega)),
    Nat.sub_zero]

/-- With a single tap (delay = 1), the filter scales the input by the decay:
the unit tap at index 0 was overwritten. -/
theorem fir_eval_one (c : AudioConfig) (sr : ℕ) (x : ℕ → ℝ) (i : ℕ)
    (h1 : delaySamples c sr = 1) :
    fir (impulseResponse c sr) (delaySamples c sr) x i = (c.reverb_decay : ℝ) * x i := by
  unfold fir
  rw [h1, min_eq_right (by omega), Finset.sum_range_one,
    impulseResponse, h1, if_pos rfl, Nat.sub_zero]

/-- The per-frame maximand is nonnegative. -/
theorem absMax_nonneg (b : StereoBuf) (i : ℕ) : 0 ≤ absMax b i :=
  le_trans (abs_nonneg _) (le_max_left _ _)

/-- A nonempty buffer has a peak. -/
theorem peak_of_pos (b : StereoBuf) (h : 0 < b.N) : ∃ p, peak? b = some p := by
  rw [peak?, dif_pos h]
  exact ⟨_, rfl⟩

/-- A buffer with a peak is nonempty. -/
theorem pos_of_peak (b : StereoBuf) (p : ℝ) (hp : peak? b = some p) : 0 < b.N := by
  by_contra h
  rw [peak?, dif_neg h] at hp
  exact Option.noConfusion hp

/-- Every frame is bounded by the peak. -/
theorem le_peak (b : StereoBuf) (p : ℝ) (i : ℕ) (hp : peak? b = some p)
    (hi : i < b.N) : absMax b i ≤ p := by
  have h := pos_of_peak b p hp
  rw [peak?, dif_pos h] at hp
  obtain rfl := Option.some_injective _ hp
  exact Finset.le_sup' (absMax b) (Finset.mem_range.mpr hi)

/-- The peak is attained at some frame. -/
theorem peak_attained (b : StereoBuf) (p : ℝ) (hp : peak? b = some p) :
    ∃ i < b.N, absMax b i = p := by
  have h := pos_of_peak b p hp
  rw [peak?, dif_pos h] at hp
  obtain rfl := Option.some_injective _ hp
  obtain ⟨i, hi, hie⟩ := Finset.exists_mem_eq_sup'
    (Finset.nonempty_range_iff.mpr (Nat.pos_iff_ne_zero.mp h)) (absMax b)
  exact ⟨i, Finset.mem_range.mp hi, hie.symm⟩

/-- The peak is nonnegative. -/
theorem peak_nonneg (b : StereoBuf) (p : ℝ) (hp : peak? b = some p) : 0 ≤ p := by
  obtain ⟨i, _, hie⟩ := peak_attained b p hp
  exact hie ▸ absMax_nonneg b i

/-- Pulling division by a positive constant out of a finite supremum. -/
theorem sup'_div_const (s : Finset ℕ) (H : s.Nonempty) (f : ℕ → ℝ) (p : ℝ)
    (hpos : 0 < p) : s.sup' H (fun i => f i / p) = s.sup' H f / p := by
  have hm : ∀ x y : ℝ, (x ⊔ y) / p = x / p ⊔ y / p := fun x y =>
    Monotone.map_max fun u v huv => (div_le_div_iff_of_pos_right hpos).mpr huv
  have hcomp := Finset.comp_sup'_eq_sup'_comp (f := f) H (fun x : ℝ => x / p) hm
  rw [show (fun i => f i / p) = ((fun x : ℝ => x / p) ∘ f) from rfl, ← hcomp]

/-- Dividing a buffer by its nonzero peak yields a buffer with peak exactly 1. -/
theorem peak_after_div (b : StereoBuf) (p : ℝ) (hp : peak? b = some p)
    (hpne : p ≠ 0) :
    peak? ⟨b.N, fun i => ((b.data i).1 / p, (b.data i).2 / p)⟩ = some 1 := by
  have hpos : 0 < p := lt_of_le_of_ne (peak_nonneg b p hp) (Ne.symm hpne)
  have hN := pos_of_peak b p hp
  have habs : ∀ i, absMax ⟨b.N, fun i => ((b.data i).1 / p, (b.data i).2 / p)⟩ i =
      absMax b i / p := by
    intro i
    show max |(b.data i).1 / p| |(b.data i).2 / p| = max |(b.data i).1| |(b.data i).2| / p
    rw [abs_div, abs_div, abs_of_pos hpos]
    exact (Monotone.map_max (fun u v huv => (div_le_div_iff_of_pos_right hpos).mpr huv)).symm
  have hsup : peak? b = some p := hp
  rw [peak?, dif_pos hN] at hsup ⊢
  have hps := Option.some_injective _ hsup
  congr 1
  rw [Finset.sup'_congr _ rfl (fun i _ => habs i),
    sup'_div_const _ _ (absMax b) p hpos, hps, div_self hpne]

/-- The peak of a nonempty buffer whose per-frame maximand is constant. -/
theorem peak_of_const_abs (b : StereoBuf) (v : ℝ) (hN : 0 < b.N)
    (h : ∀ i, i < b.N → absMax b i = v) : peak? b = some v := by
  rw [peak?, dif_pos hN]
  congr 1
  refine le_antisymm
    (Finset.sup'_le _ _ fun i hi => le_of_eq (h i (Finset.mem_range.mp hi)))
    ((h 0 hN) ▸ Finset.le_sup' _ (Finset.mem_range.mpr hN))

/-! ## Claim theorems -/

/-- C5: `validateConfig` succeeds exactly when pan_speed ∈ (0, 2],
depth ∈ [0, 1], reverb_delay ∈ (0, 100] and reverb_decay ∈ [0, 1]; otherwise
it fails naming the first violated constraint in the fixed order pan_speed,
depth, reverb_delay, reverb_decay; pan_speed = 2.0 passes and
pan_speed = 2.0001 fails. -/
theorem claim_C5_validator :
    (∀ c : AudioConfig,
      (validateConfig c = .ok () ↔
        (0 < c.pan_speed ∧ c.pan_speed ≤ 2) ∧ (0 ≤ c.depth ∧ c.depth ≤ 1) ∧
        (0 < c.reverb_delay ∧ c.reverb_delay ≤ 100) ∧
        (0 ≤ c.reverb_decay ∧ c.reverb_decay ≤ 1)) ∧
      (¬(0 < c.pan_speed ∧ c.pan_speed ≤ 2) →
        validateConfig c = .error "Pan speed must be between 0 and 2 Hz") ∧
      ((0 < c.pan_speed ∧ c.pan_speed ≤ 2) → ¬(0 ≤ c.depth ∧ c.depth ≤ 1) →
        validateConfig c = .error "Depth must be between 0 and 1") ∧
      ((0 < c.pan_speed ∧ c.pan_speed ≤ 2) → (0 ≤ c.depth ∧ c.depth ≤ 1) →
        ¬(0 < c.reverb_delay ∧ c.reverb_delay ≤ 100) →
        validateConfig c = .error "Reverb delay must be between 0 and 100 ms") ∧
      ((0 < c.pan_speed ∧ c.pan_speed ≤ 2) → (0 ≤ c.depth ∧ c.depth ≤ 1) →
        (0 < c.reverb_delay ∧ c.reverb_delay ≤ 100) →
        ¬(0 ≤ c.reverb_decay ∧ c.reverb_decay ≤ 1) →
        validateConfig c = .error "Reverb decay must be between 0 and 1")) ∧
    validateConfig { defaultCfg with pan_speed := 2 } = .ok () ∧
    validateConfig { defaultCfg with pan_speed := 20001/10000 } =
      .error "Pan speed must be between 0 and 2 Hz" := by
  refine ⟨fun c => ⟨validateConfig_ok_iff c, ?_, ?_, ?_, ?_⟩,
    by norm_num [validateConfig, defaultCfg], by norm_num [validateConfig, defaultCfg]⟩
  all_goals intros <;> unfold validateConfig <;> split_ifs <;> simp_all

/-- Witness for C5 at the default configuration. -/
theorem claim_C5_validator_witness : validateConfig defaultCfg = .ok () :=
  (claim_C5_validator.1 defaultCfg).1.mpr (by norm_num [defaultCfg])

/-- C2: the claim fails on the code. `convert_file` reshapes a mono file to a
(N, 1) array, so the `len(shape) == 1` up-mix branch of `_apply_panning` is
dead code and `audio_data[:, 1]` raises IndexError on every mono input: no
duplication into two channels ever happens, and the pipeline crashes in the
panning stage instead of producing a stereo buffer. -/
theorem claim_C2_mono_crash :
    validateConfig defaultCfg = .ok () ∧
    applyPanning defaultCfg 8000 (.mono 1 (fun _ => 1/2)) = .error .panIndexError ∧
    process defaultCfg 8000 (.mono 1 (fun _ => 1/2)) = .error .panIndexError :=
  ⟨by norm_num [validateConfig, defaultCfg], rfl, rfl⟩

/-- C4 counterexample: the claim quantifies over every buffer of N ≥ 1 frames,
including mono ones, and asserts the differential-gain outputs exist; but at a
validated configuration the panning stage fails with IndexError on a mono
buffer of 2 frames instead of producing any output samples. -/
theorem claim_C4_pan_curve_counterexample :
    validateConfig defaultCfg = .ok () ∧
    applyPanning defaultCfg 8000 (.mono 2 (fun _ => 1/2)) = .error .panIndexError :=
  ⟨by norm_num [validateConfig, defaultCfg], rfl⟩

/-- C4 (amended: restricted to stereo buffers, the only inputs on which the
panning stage produces output — every mono input raises IndexError): for a
stereo buffer of N ≥ 1 frames at positive sample rate and a validated
configuration, the time base is i * (N/sr) / (N-1) for N ≥ 2 and 0 for N = 1,
the pan curve lies in [-depth, depth] ⊆ [-1, 1] at every index, and the stage
outputs left * (1 + p), right * (1 - p) per frame. -/
theorem claim_C4_pan_curve (c : AudioConfig) (sr N : ℕ) (x : ℕ → ℝ × ℝ)
    (hv : validateConfig c = .ok ()) (_hN : 1 ≤ N) (_hsr : 0 < sr) :
    (2 ≤ N → ∀ i, tlin N sr i = (i : ℝ) * ((N : ℝ) / (sr : ℝ)) / ((N : ℝ) - 1)) ∧
    (N = 1 → ∀ i, tlin N sr i = 0) ∧
    (∀ i, -(c.depth : ℝ) ≤ panCurve c sr N i ∧
      panCurve c sr N i ≤ (c.depth : ℝ) ∧
      -1 ≤ panCurve c sr N i ∧ panCurve c sr N i ≤ 1) ∧
    applyPanning c sr (.stereo N x) = .ok (panBuf c sr N x) ∧
    (∀ i, (panBuf c sr N x).data i =
      ((x i).1 * (1 + panCurve c sr N i), (x i).2 * (1 - panCurve c sr N i))) := by
  obtain ⟨-, ⟨hd0, hd1⟩, -, -⟩ := (validateConfig_ok_iff c).mp hv
  have hd1' : (c.depth : ℝ) ≤ 1 := by exact_mod_cast hd1
  refine ⟨?_, ?_, fun i => ?_, rfl, fun i => rfl⟩
  · intro h2 i
    rw [tlin, if_neg (by omega)]
  · intro h1 i
    rw [tlin, if_pos (by omega)]
  · obtain ⟨hlo, hhi⟩ := panCurve_bounds c sr N i hd0
    exact ⟨hlo, hhi, le_trans (by linarith) hlo, le_trans hhi hd1'⟩

/-- Witness for C4 (amended): default configuration, one stereo frame at
8000 Hz; the time base is 0 at every index, the pan curve is bounded by 1 in
absolute value, and the stage succeeds. -/
theorem claim_C4_pan_curve_witness :
    (∀ i, tlin 1 8000 i = 0) ∧
    (∀ i, -1 ≤ panCurve defaultCfg 8000 1 i ∧ panCurve defaultCfg 8000 1 i ≤ 1) ∧
    applyPanning defaultCfg 8000 (.stereo 1 (fun _ => (1/2, 1/2))) =
      .ok (panBuf defaultCfg 8000 1 (fun _ => (1/2, 1/2))) := by
  have h := claim_C4_pan_curve defaultCfg 8000 1 (fun _ => (1/2, 1/2))
    (by norm_num [validateConfig, defaultCfg]) (by decide) (by decide)
  exact ⟨h.2.1 rfl, fun i => ⟨(h.2.2.1 i).2.2.1, (h.2.2.1 i).2.2.2⟩, h.2.2.2.1⟩

/-- C3 counterexample: with the (validated) default configuration at sample
rate 20 Hz, delay_samples = floor(50 * 20 / 1000) = 1, and the first tap of the
impulse response is the decay 0.3, not 1.0 as the claim requires: the
assignment `ir[delay_samples-1] = decay` overwrote `ir[0] = 1`. -/
theorem claim_C3_reverb_fir_counterexample :
    validateConfig defaultCfg = .ok () ∧
    delaySamples defaultCfg 20 = 1 ∧
    impulseResponse defaultCfg 20 0 ≠ 1 := by
  have h1 : delaySamples defaultCfg 20 = 1 := by norm_num [delaySamples, defaultCfg]
  refine ⟨by norm_num [validateConfig, defaultCfg], h1, ?_⟩
  rw [impulseResponse, h1, if_pos rfl]
  norm_num [defaultCfg]

/-- C3 (amended: for delay_samples ≥ 2, as forced by the overwrite at
delay_samples = 1): the reverb stage succeeds, keeps the frame count, the
impulse response has tap 1.0 at index 0, the decay at the last index and 0.0
elsewhere, each channel is filtered independently by the causal FIR `fir`,
and the output combines as original + 0.5 * reverb. -/
theorem claim_C3_reverb_fir (c : AudioConfig) (sr : ℕ) (b : StereoBuf)
    (_hv : validateConfig c = .ok ()) (h2 : 2 ≤ delaySamples c sr) :
    applyReverb c sr b = .ok (reverbOut c sr b) ∧
    (reverbOut c sr b).N = b.N ∧
    impulseResponse c sr 0 = 1 ∧
    impulseResponse c sr (delaySamples c sr - 1) = (c.reverb_decay : ℝ) ∧
    (∀ j, j ≠ 0 → j ≠ delaySamples c sr - 1 → impulseResponse c sr j = 0) ∧
    (∀ i, (reverbOut c sr b).data i =
      ((b.data i).1 +
        fir (impulseResponse c sr) (delaySamples c sr) (fun k => (b.data k).1) i * 0.5,
       (b.data i).2 +
        fir (impulseResponse c sr) (delaySamples c sr) (fun k => (b.data k).2) i * 0.5)) ∧
    (∀ x y : ℕ → ℝ, ∀ i, (∀ k, k ≤ i → x k = y k) →
      fir (impulseResponse c sr) (delaySamples c sr) x i =
        fir (impulseResponse c sr) (delaySamples c sr) y i) := by
  refine ⟨?_, rfl, ?_, ?_, ?_, fun i => rfl,
    fun x y i h => fir_causal (impulseResponse c sr) (delaySamples c sr) x y i h⟩
  · rw [applyReverb, if_neg (by omega)]
  · rw [impulseResponse, if_neg (by omega), if_pos rfl]
  · rw [impulseResponse, if_pos rfl]
  · intro j hj0 hjlast
    rw [impulseResponse, if_neg hjlast, if_neg hj0]

/-- Witness for C3 (amended) at the default configuration, 8000 Hz, one frame:
delay_samples = 400 ≥ 2, the stage succeeds and the first tap is 1.0. -/
theorem claim_C3_reverb_fir_witness :
    applyReverb defaultCfg 8000 ⟨1, fun _ => (1/2, 1/2)⟩ =
      .ok (reverbOut defaultCfg 8000 ⟨1, fun _ => (1/2, 1/2)⟩) ∧
    impulseResponse defaultCfg 8000 0 = 1 := by
  have hd : delaySamples defaultCfg 8000 = 400 := by
    norm_num [delaySamples, defaultCfg]; rfl
  have h := claim_C3_reverb_fir defaultCfg 8000 ⟨1, fun _ => (1/2, 1/2)⟩
    (by norm_num [validateConfig, defaultCfg]) (by omega)
  exact ⟨h.1, h.2.2.1⟩

/-- C10: when delay_samples = 1, the impulse response degenerates to the
single tap [decay] (the direct tap at index 0 is overwritten), so the reverb
stage produces no echo and scales every sample by 1 + 0.5 * decay. -/
theorem claim_C10_single_tap (c : AudioConfig) (sr : ℕ) (b : StereoBuf)
    (h1 : delaySamples c sr = 1) :
    impulseResponse c sr 0 = (c.reverb_decay : ℝ) ∧
    applyReverb c sr b = .ok (reverbOut c sr b) ∧
    ∀ i, (reverbOut c sr b).data i =
      ((1 + (c.reverb_decay : ℝ) * 0.5) * (b.data i).1,
       (1 + (c.reverb_decay : ℝ) * 0.5) * (b.data i).2) := by
  refine ⟨by rw [impulseResponse, h1, if_pos rfl], by rw [applyReverb, if_neg (by omega)],
    fun i => ?_⟩
  show ((b.data i).1 +
      fir (impulseResponse c sr) (delaySamples c sr) (fun k => (b.data k).1) i * 0.5,
    (b.data i).2 +
      fir (impulseResponse c sr) (delaySamples c sr) (fun k => (b.data k).2) i * 0.5) = _
  rw [fir_eval_one c sr _ i h1, fir_eval_one c sr _ i h1]
  refine Prod.ext ?_ ?_ <;> show _ = _ <;> ring

/-- Witness for C10: default configuration at 20 Hz gives delay_samples = 1;
on a one-frame unit buffer the stage succeeds and the tap is the decay. -/
theorem claim_C10_single_tap_witness :
    impulseResponse defaultCfg 20 0 = (defaultCfg.reverb_decay : ℝ) ∧
    applyReverb defaultCfg 20 ⟨1, fun _ => (1, 1)⟩ =
      .ok (reverbOut defaultCfg 20 ⟨1, fun _ => (1, 1)⟩) := by
  have h := claim_C10_single_tap defaultCfg 20 ⟨1, fun _ => (1, 1)⟩
    (by norm_num [delaySamples, defaultCfg])
  exact ⟨h.1, h.2.1⟩

/-- C7: the code does not treat delay_samples = 0 as a no-op reverb. With the
validated default configuration at sample rate 10 Hz, delay_samples = 0 and
`_apply_reverb` raises IndexError on `ir[0] = 1` into a zero-length array,
instead of returning the buffer unchanged. -/
theorem claim_C7_zero_delay_crash :
    validateConfig defaultCfg = .ok () ∧
    delaySamples defaultCfg 10 = 0 ∧
    applyReverb defaultCfg 10 ⟨1, fun _ => (1/2, 1/2)⟩ = .error .irIndexError := by
  have h0 : delaySamples defaultCfg 10 = 0 := by norm_num [delaySamples, defaultCfg]
  exact ⟨by norm_num [validateConfig, defaultCfg], h0, by rw [applyReverb, if_pos h0]⟩

/-- C6: on a buffer whose peak p is defined and nonzero (non-silent input),
the normalizer succeeds, the peak of the output is exactly 1, and every
output sample lies in [-1, 1]. -/
theorem claim_C6_peak_bound (b : StereoBuf) (p : ℝ)
    (hp : peak? b = some p) (hpne : p ≠ 0) :
    normalize b = .ok ⟨b.N, fun i => ((b.data i).1 / p, (b.data i).2 / p)⟩ ∧
    peak? ⟨b.N, fun i => ((b.data i).1 / p, (b.data i).2 / p)⟩ = some 1 ∧
    ∀ i, i < b.N → |(b.data i).1 / p| ≤ 1 ∧ |(b.data i).2 / p| ≤ 1 := by
  have hpos : 0 < p := lt_of_le_of_ne (peak_nonneg b p hp) (Ne.symm hpne)
  refine ⟨by unfold normalize; rw [hp]; exact if_neg hpne,
    peak_after_div b p hp hpne, fun i hi => ?_⟩
  have hb := le_peak b p i hp hi
  constructor
  · rw [abs_div, abs_of_pos hpos, div_le_one hpos]
    exact le_trans (le_trans (le_max_left _ _) hb) (le_refl p)
  · rw [abs_div, abs_of_pos hpos, div_le_one hpos]
    exact le_trans (le_max_right _ _) hb

/-- Witness for C6: a one-frame buffer with samples (2, 0) has peak 2; after
normalization it is (1, 0) with peak exactly 1. -/
theorem claim_C6_peak_bound_witness :
    normalize ⟨1, fun _ => (2, 0)⟩ =
      .ok ⟨1, fun _ => ((2 : ℝ) / 2, (0 : ℝ) / 2)⟩ ∧
    peak? ⟨1, fun _ => ((2 : ℝ) / 2, (0 : ℝ) / 2)⟩ = some 1 := by
  have habs0 : absMax ⟨1, fun _ => ((2 : ℝ), (0 : ℝ))⟩ 0 = 2 := by
    show max |(2 : ℝ)| |(0 : ℝ)| = 2
    norm_num
  have hp : peak? ⟨1, fun _ => ((2 : ℝ), (0 : ℝ))⟩ = some 2 := by
    rw [peak?, dif_pos Nat.one_pos]
    congr 1
  have h := claim_C6_peak_bound ⟨1, fun _ => (2, 0)⟩ 2 hp (by norm_num)
  exact ⟨h.1, h.2.1⟩

/-- C1: the claim fails on the code. The normalization in `convert_file` is
the unguarded `audio_data / np.max(np.abs(audio_data))`; on an all-zero
one-frame stereo input (the zero-frame check free path that reaches
normalization) the panned and reverbed signal is still all zero, its peak is
0, and the numpy division 0/0 produces NaN samples instead of returning the
buffer unchanged: the pipeline does not output an all-zero buffer. (An
all-zero mono input does not even reach normalization: it raises IndexError
in the panning stage.) -/
theorem claim_C1_silence_nan :
    validateConfig defaultCfg = .ok () ∧
    process defaultCfg 8000 (.stereo 1 (fun _ => (0, 0))) = .error .nanPeak := by
  refine ⟨by norm_num [validateConfig, defaultCfg], ?_⟩
  have hd : delaySamples defaultCfg 8000 = 400 := by
    norm_num [delaySamples, defaultCfg]; rfl
  have hpb : ∀ i, (panBuf defaultCfg 8000 1 (fun _ => ((0:ℝ), (0:ℝ)))).data i =
      ((0 : ℝ), (0 : ℝ)) := by
    intro i
    show ((0 : ℝ) * _, (0 : ℝ) * _) = ((0 : ℝ), (0 : ℝ))
    rw [zero_mul, zero_mul]
  have hrb : ∀ i, (reverbOut defaultCfg 8000
      (panBuf defaultCfg 8000 1 (fun _ => ((0:ℝ), (0:ℝ))))).data i =
      ((0 : ℝ), (0 : ℝ)) := by
    intro i
    show (_ + fir _ _ _ i * 0.5, _ + fir _ _ _ i * 0.5) = ((0 : ℝ), (0 : ℝ))
    have hfir : ∀ g : ℕ → ℝ, (∀ k, g k = 0) →
        fir (impulseResponse defaultCfg 8000) (delaySamples defaultCfg 8000) g i = 0 := by
      intro g hg
      exact Finset.sum_eq_zero fun j _ => by rw [hg, mul_zero]
    rw [hfir _ (fun k => by rw [hpb k]), hfir _ (fun k => by rw [hpb k]),
      hpb i]
    norm_num
  have hpk : peak? (reverbOut defaultCfg 8000
      (panBuf defaultCfg 8000 1 (fun _ => ((0:ℝ), (0:ℝ))))) = some 0 := by
    refine peak_of_const_abs _ 0 Nat.one_pos fun i _ => ?_
    show max |_| |_| = (0 : ℝ)
    rw [show ((reverbOut defaultCfg 8000
      (panBuf defaultCfg 8000 1 (fun _ => ((0:ℝ), (0:ℝ))))).data i) =
      ((0:ℝ), (0:ℝ)) from hrb i]
    norm_num
  rw [process_stereo, applyReverb, if_neg (by omega), Except.bind, normalize, hpk]
  exact if_pos rfl

/-- C9 counterexample: no EmptyBuffer error exists, and zero-frame buffers do
not even fail uniformly: a zero-frame mono buffer raises IndexError in the
panning stage (the (0, 1) array still bounds-checks column 1), while a
zero-frame stereo buffer passes through panning and reverb and fails with the
unnamed max-of-empty ValueError in the normalizer. -/
theorem claim_C9_empty_counterexample :
    process defaultCfg 8000 (.mono 0 (fun _ => 0)) = .error .panIndexError ∧
    process defaultCfg 8000 (.stereo 0 (fun _ => (0, 0))) = .error .emptyMax := by
  have hd : delaySamples defaultCfg 8000 = 400 := by
    norm_num [delaySamples, defaultCfg]; rfl
  refine ⟨rfl, ?_⟩
  rw [process_stereo, applyReverb, if_neg (by omega), Except.bind, normalize, peak?,
    dif_neg (by exact Nat.lt_irrefl 0)]

/-- C9 (amended: the pipeline does fail on every zero-frame buffer, but never
with a named EmptyBuffer error): a zero-frame mono buffer fails with the
panning-stage IndexError before any zero-frame check could run, and for any
configuration and sample rate with at least one reverb tap a zero-frame
stereo buffer passes through panning and reverb and fails with the unnamed
max-of-empty error in the normalizer. -/
theorem claim_C9_empty_amended (c : AudioConfig) (sr : ℕ) (x : ℕ → ℝ)
    (y : ℕ → ℝ × ℝ) (h1 : 1 ≤ delaySamples c sr) :
    process c sr (.mono 0 x) = .error .panIndexError ∧
    process c sr (.stereo 0 y) = .error .emptyMax := by
  refine ⟨rfl, ?_⟩
  rw [process_stereo, applyReverb, if_neg (by omega), Except.bind, normalize, peak?,
    dif_neg (by exact Nat.lt_irrefl 0)]

/-- Witness for C9 (amended) at the default configuration and 8000 Hz. -/
theorem claim_C9_empty_amended_witness :
    process defaultCfg 8000 (.mono 0 (fun _ => 1)) = .error .panIndexError ∧
    process defaultCfg 8000 (.stereo 0 (fun _ => (1, 1))) = .error .emptyMax := by
  have hd : delaySamples defaultCfg 8000 = 400 := by
    norm_num [delaySamples, defaultCfg]; rfl
  exact claim_C9_empty_amended defaultCfg 8000 (fun _ => 1) (fun _ => (1, 1)) (by omega)

/-- The concrete scenario buffer of the claim: one second of mono audio at
8000 Hz with every sample 0.5 (a (8000, 1) array after the reshape). -/
noncomputable def monoHalf : AudioData := .mono 8000 (fun _ => (1/2 : ℝ))

/-- The stereo analogue of the scenario buffer: both channels 0.5 — the
working signal the spec intends the mono scenario to become, and the only
form of it the panning stage accepts. -/
noncomputable def stereoHalf : AudioData := .stereo 8000 (fun _ => ((1/2 : ℝ), (1/2 : ℝ)))

/-- The stereo scenario buffer after the panning stage (default config). -/
noncomputable def pan8 : StereoBuf :=
  panBuf defaultCfg 8000 8000 (fun _ => ((1/2 : ℝ), (1/2 : ℝ)))

/-- The stereo scenario buffer after the reverb stage (default config). -/
noncomputable def rev8 : StereoBuf := reverbOut defaultCfg 8000 pan8

/-- The pan curve of the scenario is 0 at frame 0, so both panned channels
start at 0.5 there. -/
theorem pan8_data_zero : pan8.data 0 = ((1/2 : ℝ), (1/2 : ℝ)) := by
  have ht : tlin 8000 8000 0 = 0 := by
    rw [tlin, if_neg (by omega)]
    norm_num
  have hc : panCurve defaultCfg 8000 8000 0 = 0 := by
    rw [panCurve, ht, mul_zero, Real.sin_zero, zero_mul]
  show ((1/2 : ℝ) * (1 + panCurve defaultCfg 8000 8000 0),
        (1/2 : ℝ) * (1 - panCurve defaultCfg 8000 8000 0)) = _
  rw [hc]
  norm_num

/-- In the scenario, delay_samples is 400. -/
theorem delaySamples_scenario : delaySamples defaultCfg 8000 = 400 := by
  norm_num [delaySamples, defaultCfg]; rfl

/-- The cast of the default decay. -/
theorem defaultDecay_cast : ((defaultCfg.reverb_decay : ℚ) : ℝ) = 3/10 := by
  norm_num [defaultCfg]

/-- C8 counterexample: the claimed scenario buffer is mono, and on the real
pipeline it raises IndexError in the panning stage and never reaches the
reverb stage or the normalizer, so neither the echo-bump-at-400 statement nor
the peak-equals-1 statement describes the program at this input. Moreover,
even on the stereo working signal the spec intends, the echo contribution is
already present at sample index 399 = delay_samples - 1 (in both channels),
so the echo bump does not first appear at index 400: the decayed tap sits at
index delay_samples - 1 of the impulse response. -/
theorem claim_C8_scenario_counterexample :
    process defaultCfg 8000 monoHalf = .error .panIndexError ∧
    delaySamples defaultCfg 8000 = 400 ∧
    (rev8.data 399).1 ≠ (3/2) * (pan8.data 399).1 ∧
    (rev8.data 399).2 ≠ (3/2) * (pan8.data 399).2 := by
  refine ⟨rfl, delaySamples_scenario, ?_, ?_⟩
  · have hfir := fir_eval_echo defaultCfg 8000 (fun k => (pan8.data k).1) 399
      (by rw [delaySamples_scenario]; omega) (by rw [delaySamples_scenario])
    have h1 : (rev8.data 399).1 =
        (pan8.data 399).1 + ((pan8.data 399).1 + (3/10) * (1/2)) * 0.5 := by
      show (pan8.data 399).1 + fir _ _ _ 399 * 0.5 = _
      rw [hfir, delaySamples_scenario, defaultDecay_cast]
      norm_num [pan8_data_zero]
    rw [h1]
    intro h
    nlinarith [sq_nonneg ((pan8.data 399).1)]
  · have hfir := fir_eval_echo defaultCfg 8000 (fun k => (pan8.data k).2) 399
      (by rw [delaySamples_scenario]; omega) (by rw [delaySamples_scenario])
    have h2 : (rev8.data 399).2 =
        (pan8.data 399).2 + ((pan8.data 399).2 + (3/10) * (1/2)) * 0.5 := by
      show (pan8.data 399).2 + fir _ _ _ 399 * 0.5 = _
      rw [hfir, delaySamples_scenario, defaultDecay_cast]
      norm_num [pan8_data_zero]
    rw [h2]
    intro h
    nlinarith [sq_nonneg ((pan8.data 399).2)]

/-- C8 (amended: the mono scenario buffer itself crashes the panning stage
with IndexError and never reaches the reverb; on the equivalent stereo
working signal — both channels 0.5 — the echo bump first appears at sample
index 399 = delay_samples - 1, not 400): before index 399 the reverbed signal
is exactly 1.5 times the panned signal, at index 399 both channels pick up
the additional decayed echo term 0.5 * 0.3 * 0.5 = 3/40, the reverb stage
succeeds, and after the normalizer the global peak is exactly 1. -/
theorem claim_C8_scenario :
    process defaultCfg 8000 monoHalf = .error .panIndexError ∧
    applyPanning defaultCfg 8000 stereoHalf = .ok pan8 ∧
    delaySamples defaultCfg 8000 = 400 ∧
    (∀ i, i + 1 < 400 →
      rev8.data i = ((3/2) * (pan8.data i).1, (3/2) * (pan8.data i).2)) ∧
    (rev8.data 399).1 = (3/2) * (pan8.data 399).1 + 3/40 ∧
    (rev8.data 399).2 = (3/2) * (pan8.data 399).2 + 3/40 ∧
    applyReverb defaultCfg 8000 pan8 = .ok rev8 ∧
    ∃ p : ℝ, peak? rev8 = some p ∧ p ≠ 0 ∧
      normalize rev8 =
        .ok ⟨rev8.N, fun i => ((rev8.data i).1 / p, (rev8.data i).2 / p)⟩ ∧
      peak? ⟨rev8.N, fun i => ((rev8.data i).1 / p, (rev8.data i).2 / p)⟩ = some 1 := by
  refine ⟨rfl, rfl, delaySamples_scenario, ?_, ?_, ?_, ?_, ?_⟩
  · intro i hi
    have hl := fir_eval_early defaultCfg 8000 (fun k => (pan8.data k).1) i
      (by rw [delaySamples_scenario]; omega)
    have hr := fir_eval_early defaultCfg 8000 (fun k => (pan8.data k).2) i
      (by rw [delaySamples_scenario]; omega)
    show ((pan8.data i).1 + fir _ _ _ i * 0.5,
          (pan8.data i).2 + fir _ _ _ i * 0.5) = _
    rw [hl, hr]
    refine Prod.ext ?_ ?_ <;> show _ = _ <;> ring
  · have hfir := fir_eval_echo defaultCfg 8000 (fun k => (pan8.data k).1) 399
      (by rw [delaySamples_scenario]; omega) (by rw [delaySamples_scenario])
    show (pan8.data 399).1 + fir _ _ _ 399 * 0.5 = _
    rw [hfir, delaySamples_scenario, defaultDecay_cast]
    norm_num [pan8_data_zero]
    ring
  · have hfir := fir_eval_echo defaultCfg 8000 (fun k => (pan8.data k).2) 399
      (by rw [delaySamples_scenario]; omega) (by rw [delaySamples_scenario])
    show (pan8.data 399).2 + fir _ _ _ 399 * 0.5 = _
    rw [hfir, delaySamples_scenario, defaultDecay_cast]
    norm_num [pan8_data_zero]
    ring
  · rw [applyReverb, if_neg (by rw [delaySamples_scenario]; omega)]
    rfl
  · have hN : 0 < rev8.N := by show (0 : ℕ) < 8000; omega
    obtain ⟨p, hp⟩ := peak_of_pos rev8 hN
    have hrev0 : (rev8.data 0).1 = 3/4 := by
      have hl := fir_eval_early defaultCfg 8000 (fun k => (pan8.data k).1) 0
        (by rw [delaySamples_scenario]; omega)
      show (pan8.data 0).1 + fir _ _ _ 0 * 0.5 = _
      rw [hl]
      norm_num [pan8_data_zero]
    have habs0 : (3/4 : ℝ) ≤ absMax rev8 0 := by
      rw [absMax]
      refine le_trans ?_ (le_max_left _ _)
      rw [hrev0]
      exact le_abs_self _
    have hple : (3/4 : ℝ) ≤ p :=
      le_trans habs0 (le_peak rev8 p 0 hp hN)
    have hpne : p ≠ 0 := by intro h; rw [h] at hple; linarith
    refine ⟨p, hp, hpne, ?_, peak_after_div rev8 p hp hpne⟩
    unfold normalize
    rw [hp]
    exact if_neg hpne

end Audio8D
